import Mathlib

/-!
Shallow embedding of the faceted-filter and cursor logic of the UI/UX demo
repository (EcommerceListing.tsx, RestaurantMenu.tsx, and the mobile signup
flow), together with theorems settling the specification claims about it.
-/

set_option maxHeartbeats 1000000

/- ===================== E-commerce listing (EcommerceListing.tsx) ========= -/

/-- A hero-carousel slide (EcommerceListing.tsx `heroSlides` entries). -/
structure Slide where
  title : String
  subtitle : String
  image : String
  gradient : String
deriving DecidableEq, Repr

/-- The three hero slides of EcommerceListing.tsx. -/
def heroSlides : List Slide :=
  [ { title := "New Arrivals", subtitle := "Spring Collection 2024",
      image := "🌸", gradient := "from-coral to-amber" },
    { title := "Summer Sale", subtitle := "Up to 70% Off",
      image := "☀️", gradient := "from-amber to-teal" },
    { title := "Premium Quality", subtitle := "Crafted with Care",
      image := "✨", gradient := "from-teal to-coral" } ]

/-- A product of the e-commerce sample catalog (EcommerceListing.tsx
`products` entries).  The presentational fields `rating` (a floating-point
display value), `reviews` and `image` are never consulted by the filter or
cursor logic and are omitted from the embedding; all fields the logic reads
(`id`, `price`, `category`) and the discount/badge data are kept. -/
structure Product where
  id : Nat
  name : String
  price : Nat
  originalPrice : Option Nat
  category : String
  badge : Option String
deriving DecidableEq, Repr

/-- The six-product sample catalog of EcommerceListing.tsx. -/
def products : List Product :=
  [ { id := 1, name := "Premium Cotton T-Shirt", price := 45,
      originalPrice := some 65, category := "clothing", badge := some "Sale" },
    { id := 2, name := "Leather Crossbody Bag", price := 120,
      originalPrice := none, category := "bags", badge := some "New" },
    { id := 3, name := "Classic Sneakers", price := 85,
      originalPrice := some 110, category := "shoes", badge := some "Popular" },
    { id := 4, name := "Summer Hat", price := 35,
      originalPrice := none, category := "accessories", badge := none },
    { id := 5, name := "Denim Jacket", price := 89,
      originalPrice := some 120, category := "clothing", badge := some "Sale" },
    { id := 6, name := "Gold Watch", price := 299,
      originalPrice := none, category := "accessories", badge := some "Premium" } ]

/-- The product filter of EcommerceListing.tsx (`filteredProducts`), with the
catalog and the filter state (`selectedCategory`, `priceRange = [lo, hi]`)
as explicit arguments:
`products.filter(p => (selectedCategory === "all" || p.category === selectedCategory)
   && p.price >= priceRange[0] && p.price <= priceRange[1])`. -/
def productFilter (catalog : List Product) (selectedCategory : String)
    (lo hi : Nat) : List Product :=
  catalog.filter fun p =>
    (selectedCategory == "all" || p.category == selectedCategory) &&
    (decide (lo ≤ p.price) && decide (p.price ≤ hi))

/-- `filteredProducts` as in the source: the filter applied to the sample
catalog. -/
def filteredProducts (selectedCategory : String) (lo hi : Nat) : List Product :=
  productFilter products selectedCategory lo hi

/-- Carousel advance with the slide count `N` abstracted as a parameter;
EcommerceListing.tsx instantiates `N = heroSlides.length`:
`setCurrentSlide(prev => (prev + 1) % heroSlides.length)`. -/
def carouselNext (N p : ℤ) : ℤ := (p + 1) % N

/-- Carousel retreat with the slide count `N` abstracted as a parameter:
`setCurrentSlide(prev => (prev - 1 + heroSlides.length) % heroSlides.length)`. -/
def carouselPrev (N p : ℤ) : ℤ := (p - 1 + N) % N

/-- `nextSlide` of EcommerceListing.tsx: advance modulo the hero-slide count. -/
def nextSlide (p : ℤ) : ℤ := carouselNext (heroSlides.length : ℤ) p

/-- `prevSlide` of EcommerceListing.tsx: retreat modulo the hero-slide count. -/
def prevSlide (p : ℤ) : ℤ := carouselPrev (heroSlides.length : ℤ) p

/- ===================== Restaurant menu (RestaurantMenu.tsx) ============== -/

/-- A menu entry of RestaurantMenu.tsx (`menuItems` values). -/
structure MenuItem where
  id : Nat
  name : String
  description : String
  price : String
  tags : List String
  image : String
deriving DecidableEq, Repr

/-- The `appetizers` entries of `menuItems`. -/
def appetizers : List MenuItem :=
  [ { id := 1, name := "Truffle Arancini",
      description := "Crispy risotto balls with black truffle and parmesan",
      price := "$18", tags := ["vegetarian", "popular"], image := "🍚" },
    { id := 2, name := "Seared Scallops",
      description := "Pan-seared scallops with cauliflower purée and pancetta",
      price := "$24", tags := ["popular"], image := "🦪" },
    { id := 3, name := "Spicy Tuna Tartare",
      description := "Fresh tuna with avocado, sesame, and sriracha aioli",
      price := "$22", tags := ["spicy"], image := "🍣" } ]

/-- The `mains` entries of `menuItems`. -/
def mains : List MenuItem :=
  [ { id := 4, name := "Wagyu Ribeye",
      description := "Premium wagyu steak with roasted vegetables and red wine jus",
      price := "$65", tags := ["popular"], image := "🥩" },
    { id := 5, name := "Lobster Risotto",
      description := "Creamy arborio rice with fresh lobster and saffron",
      price := "$38", tags := ["popular"], image := "🦞" },
    { id := 6, name := "Vegetarian Wellington",
      description := "Mushroom and spinach wellington with herb gravy",
      price := "$28", tags := ["vegetarian"], image := "🥧" } ]

/-- The `desserts` entries of `menuItems`. -/
def desserts : List MenuItem :=
  [ { id := 7, name := "Chocolate Soufflé",
      description := "Rich dark chocolate soufflé with vanilla ice cream",
      price := "$16", tags := ["popular"], image := "🍫" },
    { id := 8, name := "Lemon Tart",
      description := "Classic lemon tart with meringue and berry compote",
      price := "$14", tags := ["vegetarian"], image := "🍋" } ]

/-- The `drinks` entries of `menuItems`. -/
def drinks : List MenuItem :=
  [ { id := 9, name := "Signature Martini",
      description := "House gin with dry vermouth and olive twist",
      price := "$18", tags := ["popular"], image := "🍸" },
    { id := 10, name := "Spiced Old Fashioned",
      description := "Bourbon with cinnamon syrup and orange bitters",
      price := "$16", tags := ["spicy"], image := "🥃" } ]

/-- The keyed `menuItems` record of RestaurantMenu.tsx; the TypeScript
indexed access `menuItems[activeCategory as keyof typeof menuItems]` yields
`undefined` for an unknown key, embedded here as `none`. -/
def menuItems (category : String) : Option (List MenuItem) :=
  if category == "appetizers" then some appetizers
  else if category == "mains" then some mains
  else if category == "desserts" then some desserts
  else if category == "drinks" then some drinks
  else none

/-- The per-item filter predicate inside `filteredItems`:
`selectedFilters.length === 0 || selectedFilters.some(f => item.tags.includes(f))`. -/
def menuPasses (selectedFilters : List String) (item : MenuItem) : Bool :=
  selectedFilters.length == 0 ||
    selectedFilters.any fun f => item.tags.contains f

/-- `filteredItems` of RestaurantMenu.tsx:
`menuItems[activeCategory]?.filter(item => ...) || []`. -/
def filteredItems (activeCategory : String) (selectedFilters : List String) :
    List MenuItem :=
  match menuItems activeCategory with
  | some items => items.filter (menuPasses selectedFilters)
  | none => []

/-- `toggleFilter` of RestaurantMenu.tsx, acting on the `selectedFilters`
list: remove the id when present, otherwise append it. -/
def toggleFilter (filterId : String) (prev : List String) : List String :=
  if prev.contains filterId then prev.filter fun f => f != filterId
  else prev ++ [filterId]

/- ===================== Mobile signup wizard (src/unnamed/part_000) ======= -/

/-- The wizard state of the mobile signup flow: the step cursor
`currentStep` (initialised to 1) together with the `formData` fields. -/
structure SignupState where
  currentStep : Nat
  name : String
  email : String
  password : String
  interests : List String
deriving DecidableEq, Repr

/-- The initial wizard state: step 1, empty form. -/
def initialSignup : SignupState :=
  { currentStep := 1, name := "", email := "", password := "", interests := [] }

/-- `nextStep`: `if (currentStep < 3) setCurrentStep(currentStep + 1)`. -/
def nextStepRaw (s : SignupState) : SignupState :=
  if s.currentStep < 3 then { s with currentStep := s.currentStep + 1 } else s

/-- `prevStep`: `if (currentStep > 1) setCurrentStep(currentStep - 1)`. -/
def prevStep (s : SignupState) : SignupState :=
  if s.currentStep > 1 then { s with currentStep := s.currentStep - 1 } else s

/-- `toggleInterest`: remove the interest when present, otherwise append it. -/
def toggleInterest (interest : String) (s : SignupState) : SignupState :=
  { s with interests :=
      if s.interests.contains interest then
        s.interests.filter fun i => i != interest
      else s.interests ++ [interest] }

/-- The character list of a string with whitespace stripped from both ends:
the JS `formData.name.trim()` call, embedded on the string's character
list. -/
def trimName (s : String) : List Char :=
  ((s.data.dropWhile Char.isWhitespace).reverse.dropWhile
    Char.isWhitespace).reverse

/-- The enabled-condition of the step's forward control, negating the
`disabled` expressions of the source: step 1 `!formData.name.trim()`,
step 2 `!formData.email || !formData.password || formData.password.length < 6`,
step 3 (the Sign Up button) `formData.interests.length === 0`. -/
def continueEnabled (s : SignupState) : Bool :=
  match s.currentStep with
  | 1 => !(trimName s.name).isEmpty
  | 2 => s.email != "" && s.password != "" && !(decide (s.password.length < 6))
  | 3 => !(s.interests.length == 0)
  | _ => false

/-- A click of the wizard's Continue control: the click only fires when the
control is enabled, and then runs `nextStep`. -/
def advance (s : SignupState) : SignupState :=
  if continueEnabled s then nextStepRaw s else s

/- ===================== Cursor operation sequences ======================== -/

/-- One carousel interaction of EcommerceListing.tsx: the next/prev arrows
and the indicator dots (`onClick={() => setCurrentSlide(index)}`). -/
inductive CarouselOp where
  | next : CarouselOp
  | prev : CarouselOp
  | jump : ℤ → CarouselOp
deriving DecidableEq, Repr

/-- Apply one carousel interaction to the slide cursor. -/
def applyCarouselOp (op : CarouselOp) (p : ℤ) : ℤ :=
  match op with
  | .next => nextSlide p
  | .prev => prevSlide p
  | .jump k => k

/-- Run a sequence of carousel interactions from a starting cursor. -/
def runCarousel (ops : List CarouselOp) (p : ℤ) : ℤ :=
  match ops with
  | [] => p
  | op :: rest => runCarousel rest (applyCarouselOp op p)

/-- A `jump` interaction is in range when its target is a valid slide index;
for the other interactions the condition is vacuous. -/
def opInRangeB (op : CarouselOp) : Bool :=
  match op with
  | .jump k => decide (0 ≤ k ∧ k < (heroSlides.length : ℤ))
  | _ => true

/-- One wizard interaction: a Continue click (gated advance) or a Back
click (retreat). -/
inductive WizardOp where
  | forward : WizardOp
  | back : WizardOp
deriving DecidableEq, Repr

/-- Apply one wizard interaction to the wizard state. -/
def applyWizardOp (op : WizardOp) (s : SignupState) : SignupState :=
  match op with
  | .forward => advance s
  | .back => prevStep s

/-- Run a sequence of wizard interactions from a starting state. -/
def runWizard (ops : List WizardOp) (s : SignupState) : SignupState :=
  match ops with
  | [] => s
  | op :: rest => runWizard rest (applyWizardOp op s)

/- ===================== Spec-modelled label facet over products =========== -/

/-- Modelled from the spec: the e-commerce page's code has no label facet
(`filteredProducts` reads only category and price), but the spec's unified
filter evaluator gives every catalog item a set of descriptive labels and an
ANY-match label facet.  Per the spec's data model the product labels are the
lowercase descriptive tags ("sale", "new", "popular"), realised on the sample
catalog by the product's badge; a badge-less product has no labels. -/
def productLabels (p : Product) : List String :=
  match p.badge with
  | some "Sale" => ["sale"]
  | some "New" => ["new"]
  | some "Popular" => ["popular"]
  | some "Premium" => ["premium"]
  | some _ => []
  | none => []

/-- Modelled from the spec: the unified filter evaluator of §4.1 applied to a
product catalog with the category facet and the ANY-match label facet. -/
def productLabelFilter (catalog : List Product) (selectedCategory : String)
    (selectedLabels : List String) : List Product :=
  catalog.filter fun p =>
    (selectedCategory == "all" || p.category == selectedCategory) &&
    (selectedLabels.length == 0 ||
      selectedLabels.any fun L => (productLabels p).contains L)

/- ===================== Theorems ========================================== -/

/-- C1: for every catalog and every filter state, the filter evaluator
returns exactly the catalog items satisfying the conjunction of the active
facets (category: `"all"` sentinel or equality; range, products only:
`lo ≤ price ≤ hi`), as a stable order-preserving subsequence of the catalog;
the menu evaluator is likewise an order-preserving subsequence of its
category's item list. -/
theorem filter_eval_conjunction :
    (∀ (catalog : List Product) (sc : String) (lo hi : Nat),
      (productFilter catalog sc lo hi).Sublist catalog ∧
      ∀ p, p ∈ productFilter catalog sc lo hi ↔
        p ∈ catalog ∧ (sc = "all" ∨ p.category = sc) ∧
          lo ≤ p.price ∧ p.price ≤ hi) ∧
    (∀ (cat : String) (sel : List String) (items : List MenuItem),
      menuItems cat = some items → (filteredItems cat sel).Sublist items) := by
  constructor
  · intro catalog sc lo hi
    refine ⟨List.filter_sublist catalog, ?_⟩
    intro p
    simp [productFilter, List.mem_filter, and_assoc]
  · intro cat sel items h
    simp only [filteredItems, h]
    exact List.filter_sublist items

/-- Witness for C1 at a concrete category, price range and menu tab. -/
theorem filter_eval_conjunction_witness :
    (productFilter products "clothing" 0 500).Sublist products ∧
    (filteredItems "mains" []).Sublist mains :=
  ⟨(filter_eval_conjunction.1 products "clothing" 0 500).1,
   filter_eval_conjunction.2 "mains" [] mains (by decide)⟩

/-- C2: the label facet of the menu evaluator excludes nothing when
`selectedFilters` is empty, and for non-empty `selectedFilters` an item is in
the result iff it is in the active category's list and its tag set meets
`selectedFilters` (ANY-match); hence nothing outside the catalog appears and
no matching catalog item is omitted. -/
theorem label_facet_any_match :
    ∀ (cat : String) (sel : List String) (items : List MenuItem),
      menuItems cat = some items →
        (sel = [] → filteredItems cat sel = items) ∧
        (sel ≠ [] → ∀ it, it ∈ filteredItems cat sel ↔
          it ∈ items ∧ ∃ L ∈ sel, L ∈ it.tags) := by
  intro cat sel items h
  constructor
  · rintro rfl
    simp [filteredItems, h, menuPasses]
  · intro hne it
    simp [filteredItems, h, List.mem_filter, menuPasses, hne]

/-- Witness for C2: concrete runs of the menu evaluator on the appetizers
tab with the empty and the `{"spicy"}` label selections. -/
theorem label_facet_any_match_witness :
    filteredItems "appetizers" [] = appetizers ∧
    ((appetizers.get ⟨2, by decide⟩) ∈ filteredItems "appetizers" ["spicy"] ↔
      (appetizers.get ⟨2, by decide⟩) ∈ appetizers ∧
        ∃ L ∈ ["spicy"], L ∈ (appetizers.get ⟨2, by decide⟩).tags) :=
  ⟨(label_facet_any_match "appetizers" [] appetizers (by decide)).1 rfl,
   (label_facet_any_match "appetizers" ["spicy"] appetizers (by decide)).2
     (by decide) _⟩

/-- C10: the menu evaluator is total over arbitrary category strings: any
`activeCategory` outside the four known menu keys yields the empty list (the
optional access falls back to `[]`), never an error. -/
theorem menu_filter_total :
    ∀ cat : String, cat ∉ ["appetizers", "mains", "desserts", "drinks"] →
      ∀ sel : List String, filteredItems cat sel = [] := by
  intro cat h sel
  simp only [List.mem_cons, List.mem_singleton, not_or] at h
  obtain ⟨h1, h2, h3, h4⟩ := h
  simp [filteredItems, menuItems, h1, h2, h3, h4]

/-- Witness for C10 at the unknown category `"pizza"`. -/
theorem menu_filter_total_witness :
    filteredItems "pizza" ["spicy"] = [] :=
  menu_filter_total "pizza" (by decide) ["spicy"]

/-- Iterating the carousel advance `k` times from a reduced position lands on
the modular sum of the start and the count. -/
lemma carouselNext_iterate (N : ℤ) :
    ∀ (k : ℕ) (p : ℤ), (carouselNext N)^[k] (p % N) = (p + k) % N := by
  intro k
  induction k with
  | zero => intro p; simp
  | succ k ih =>
    intro p
    rw [Function.iterate_succ_apply]
    have h1 : carouselNext N (p % N) = (p + 1) % N := by
      unfold carouselNext
      rw [Int.emod_add_emod]
    rw [h1, ih (p + 1)]
    congr 1
    push_cast
    ring

/-- Adding the modulus to a position reduces to the position itself. -/
lemma add_self_emod (N p : ℤ) : (p + N) % N = p % N := by
  have h := Int.add_mul_emod_self_left p N 1
  rw [mul_one] at h
  exact h

/-- C5: for every slide count `N ≥ 1` and start position in `[0, N-1]`,
applying the carousel advance exactly `N` times returns to the start
(cyclic closure), and the carousel retreat undoes the advance. -/
theorem carousel_cyclic_closure :
    ∀ (N p : ℤ), 1 ≤ N → 0 ≤ p → p < N →
      (carouselNext N)^[N.toNat] p = p ∧
      carouselPrev N (carouselNext N p) = p := by
  intro N p hN h0 hp
  have hpe : p % N = p := Int.emod_eq_of_lt h0 hp
  constructor
  · have hit := carouselNext_iterate N N.toNat p
    rw [hpe] at hit
    rw [hit, Int.toNat_of_nonneg (by omega), add_self_emod, hpe]
  · unfold carouselPrev carouselNext
    have h2 : (p + 1) % N - 1 + N = (p + 1) % N + (N - 1) := by ring
    rw [h2, Int.emod_add_emod]
    have h3 : p + 1 + (N - 1) = p + N := by ring
    rw [h3, add_self_emod, hpe]

/-- Witness for C5: the code's slide count `N = 3` with start position 1. -/
theorem carousel_cyclic_closure_witness :
    (carouselNext 3)^[(3 : ℤ).toNat] 1 = 1 ∧
    carouselPrev 3 (carouselNext 3 1) = 1 :=
  carousel_cyclic_closure 3 1 (by decide) (by decide) (by decide)

/-- The hero carousel of the source has three slides. -/
lemma heroSlides_length : (heroSlides.length : ℤ) = 3 := by decide

/-- Every in-range carousel interaction keeps the cursor in `[0, N-1]`. -/
lemma runCarousel_bound (ops : List CarouselOp) :
    ∀ p : ℤ, (∀ op ∈ ops, opInRangeB op = true) → 0 ≤ p → p < 3 →
      0 ≤ runCarousel ops p ∧ runCarousel ops p < 3 := by
  induction ops with
  | nil => intro p _ h0 h3; exact ⟨h0, h3⟩
  | cons op rest ih =>
    intro p hops h0 h3
    have hop := hops op (List.mem_cons_self op rest)
    have hrest : ∀ o ∈ rest, opInRangeB o = true :=
      fun o ho => hops o (List.mem_cons_of_mem op ho)
    cases op with
    | next =>
      have hb : 0 ≤ nextSlide p ∧ nextSlide p < 3 := by
        unfold nextSlide carouselNext
        rw [heroSlides_length]
        omega
      exact ih (nextSlide p) hrest hb.1 hb.2
    | prev =>
      have hb : 0 ≤ prevSlide p ∧ prevSlide p < 3 := by
        unfold prevSlide carouselPrev
        rw [heroSlides_length]
        omega
      exact ih (prevSlide p) hrest hb.1 hb.2
    | jump k =>
      have hb : 0 ≤ k ∧ k < 3 := by
        have := of_decide_eq_true hop
        rw [heroSlides_length] at this
        exact this
      exact ih k hrest hb.1 hb.2

/-- A Continue click either leaves the step alone or advances a non-final
step by one. -/
lemma advance_currentStep_le (s : SignupState) :
    (advance s).currentStep = s.currentStep ∨
      ((advance s).currentStep = s.currentStep + 1 ∧ s.currentStep < 3) := by
  unfold advance nextStepRaw
  by_cases h : continueEnabled s = true
  · rw [if_pos h]
    by_cases h2 : s.currentStep < 3
    · rw [if_pos h2]; right; exact ⟨rfl, h2⟩
    · rw [if_neg h2]; left; rfl
  · rw [if_neg h]; left; rfl

/-- A Back click either leaves the step alone or lowers a step above the
floor by one. -/
lemma prevStep_currentStep (s : SignupState) :
    (prevStep s).currentStep = s.currentStep ∨
      ((prevStep s).currentStep = s.currentStep - 1 ∧ s.currentStep > 1) := by
  unfold prevStep
  by_cases h : s.currentStep > 1
  · rw [if_pos h]; right; exact ⟨rfl, h⟩
  · rw [if_neg h]; left; rfl

/-- Every wizard interaction keeps the step in `[1, 3]`. -/
lemma runWizard_bound (ops : List WizardOp) :
    ∀ s : SignupState, 1 ≤ s.currentStep → s.currentStep ≤ 3 →
      1 ≤ (runWizard ops s).currentStep ∧ (runWizard ops s).currentStep ≤ 3 := by
  induction ops with
  | nil => intro s h1 h3; exact ⟨h1, h3⟩
  | cons op rest ih =>
    intro s h1 h3
    have hb : 1 ≤ (applyWizardOp op s).currentStep ∧
        (applyWizardOp op s).currentStep ≤ 3 := by
      cases op with
      | forward =>
        have hs := advance_currentStep_le s
        simp only [applyWizardOp]
        rcases hs with h | ⟨h, hlt⟩ <;> rw [h] <;> omega
      | back =>
        have hs := prevStep_currentStep s
        simp only [applyWizardOp]
        rcases hs with h | ⟨h, hgt⟩ <;> rw [h] <;> omega
    exact ih (applyWizardOp op s) hb.1 hb.2

/-- C4: starting from the initial positions (0 for the carousel, step 1 for
the wizard), every sequence of advance, retreat and in-range jump
interactions keeps the carousel cursor in `[0, N-1]` and the wizard step in
`[1, 3]`. -/
theorem cursor_bound_invariant :
    (∀ ops : List CarouselOp, (∀ op ∈ ops, opInRangeB op = true) →
      0 ≤ runCarousel ops 0 ∧ runCarousel ops 0 < (heroSlides.length : ℤ)) ∧
    (∀ ops : List WizardOp,
      1 ≤ (runWizard ops initialSignup).currentStep ∧
      (runWizard ops initialSignup).currentStep ≤ 3) := by
  constructor
  · intro ops hops
    rw [heroSlides_length]
    exact runCarousel_bound ops 0 hops (by decide) (by decide)
  · intro ops
    exact runWizard_bound ops initialSignup (by decide) (by decide)

/-- Witness for C4 at concrete interaction sequences. -/
theorem cursor_bound_invariant_witness :
    (0 ≤ runCarousel [CarouselOp.next, CarouselOp.jump 2, CarouselOp.prev] 0 ∧
      runCarousel [CarouselOp.next, CarouselOp.jump 2, CarouselOp.prev] 0 <
        (heroSlides.length : ℤ)) ∧
    (1 ≤ (runWizard [WizardOp.forward, WizardOp.back] initialSignup).currentStep ∧
      (runWizard [WizardOp.forward, WizardOp.back] initialSignup).currentStep ≤ 3) :=
  ⟨cursor_bound_invariant.1 [CarouselOp.next, CarouselOp.jump 2, CarouselOp.prev]
      (by decide),
   cursor_bound_invariant.2 [WizardOp.forward, WizardOp.back]⟩

/-- The claim's gate for step "account" is refuted by the code: the step-2
Continue control checks only non-emptiness of the email and the password
length, never the presence of an "@" separator.  At this concrete state the
email contains no "@", yet the advance succeeds, moving to step 3. -/
theorem account_step_gate_counterexample :
    (advance { currentStep := 2, name := "Jane", email := "janeexample.com",
               password := "secret", interests := [] }).currentStep = 3 ∧
    Char.ofNat 64 ∉ "janeexample.com".data := by decide

/-- C3 (amended): at wizard step "account" (step 2), a Continue click
succeeds — moving from step 2 to step 3 — iff the email field is non-empty
and the password field is non-empty with length at least 6; otherwise the
click is a no-op on the whole state. -/
theorem account_step_gate :
    ∀ s : SignupState, s.currentStep = 2 →
      ((advance s).currentStep = 3 ↔
        s.email ≠ "" ∧ s.password ≠ "" ∧ 6 ≤ s.password.length) ∧
      (¬(s.email ≠ "" ∧ s.password ≠ "" ∧ 6 ≤ s.password.length) →
        advance s = s) := by
  intro s h2
  have hc : continueEnabled s =
      (s.email != "" && (s.password != "" && !(decide (s.password.length < 6)))) := by
    unfold continueEnabled
    rw [h2]
    simp [Bool.and_assoc]
  have hbool : continueEnabled s = true ↔
      (s.email ≠ "" ∧ s.password ≠ "" ∧ 6 ≤ s.password.length) := by
    rw [hc]
    simp [bne_iff_ne, Nat.not_lt]
  by_cases hP : s.email ≠ "" ∧ s.password ≠ "" ∧ 6 ≤ s.password.length
  · have ht : continueEnabled s = true := hbool.mpr hP
    constructor
    · simp [advance, ht, nextStepRaw, h2, hP]
    · intro hn
      exact absurd hP hn
  · have hf : continueEnabled s = false := by
      cases hcb : continueEnabled s
      · rfl
      · exact absurd (hbool.mp hcb) hP
    constructor
    · simp [advance, hf, h2, hP]
    · intro _
      simp [advance, hf]

/-- Witness for C3 (amended), also exhibiting the spec's concrete scenario:
with email `"jane@example.com"`, a length-6 password advances from step 2 to
step 3 and a length-4 password is rejected as a no-op. -/
theorem account_step_gate_witness :
    (advance { currentStep := 2, name := "Jane", email := "jane@example.com",
               password := "abcdef", interests := [] }).currentStep = 3 ∧
    advance { currentStep := 2, name := "Jane", email := "jane@example.com",
              password := "abcd", interests := [] } =
      { currentStep := 2, name := "Jane", email := "jane@example.com",
        password := "abcd", interests := [] } :=
  ⟨(account_step_gate
      { currentStep := 2, name := "Jane", email := "jane@example.com",
        password := "abcdef", interests := [] } rfl).1.mpr (by decide),
   (account_step_gate
      { currentStep := 2, name := "Jane", email := "jane@example.com",
        password := "abcd", interests := [] } rfl).2 (by decide)⟩

/-- C6: a wizard Continue click at the final step is a silent no-op, a
Continue click from any state whose validation predicate fails is a no-op,
and a Back click at the first step is a no-op (the floor is clamped at 1);
in every rejected case the entire state is unchanged. -/
theorem wizard_rejection_noop :
    ∀ s : SignupState,
      (s.currentStep = 3 → advance s = s) ∧
      (continueEnabled s = false → advance s = s) ∧
      (s.currentStep = 1 → prevStep s = s) := by
  intro s
  refine ⟨?_, ?_, ?_⟩
  · intro h3
    simp [advance, nextStepRaw, h3]
  · intro hf
    simp [advance, hf]
  · intro h1
    simp [prevStep, h1]

/-- Witness for C6: a filled final-step state, the empty initial state
(whose step-1 validation fails), and a Back click at step 1. -/
theorem wizard_rejection_noop_witness :
    advance { currentStep := 3, name := "Jane", email := "jane@example.com",
              password := "abcdef", interests := ["Music"] } =
      { currentStep := 3, name := "Jane", email := "jane@example.com",
        password := "abcdef", interests := ["Music"] } ∧
    advance initialSignup = initialSignup ∧
    prevStep initialSignup = initialSignup :=
  ⟨(wizard_rejection_noop
      { currentStep := 3, name := "Jane", email := "jane@example.com",
        password := "abcdef", interests := ["Music"] }).1 rfl,
   (wizard_rejection_noop initialSignup).2.1 (by decide),
   (wizard_rejection_noop initialSignup).2.2 rfl⟩

/-- Toggling a label twice leaves the selected-label set (as a membership
predicate) unchanged. -/
lemma toggleFilter_twice_mem (L : String) (sel : List String) :
    ∀ x, x ∈ toggleFilter L (toggleFilter L sel) ↔ x ∈ sel := by
  intro x
  by_cases hL : L ∈ sel
  · have hc : sel.contains L = true := by
      simpa [List.contains] using List.elem_iff.mpr hL
    have hnc : ((sel.filter fun f => f != L).contains L) = false := by
      simp [List.contains, List.elem_eq_mem, List.mem_filter]
    have e1 : toggleFilter L sel = sel.filter fun f => f != L := by
      rw [toggleFilter, if_pos hc]
    have e2 : toggleFilter L (sel.filter fun f => f != L) =
        (sel.filter fun f => f != L) ++ [L] := by
      rw [toggleFilter, if_neg (by simp [hnc])]
    rw [e1, e2]
    simp only [List.mem_append, List.mem_filter, List.mem_singleton,
      bne_iff_ne, ne_eq]
    constructor
    · rintro (⟨hx, _⟩ | rfl)
      · exact hx
      · exact hL
    · intro hx
      by_cases hxL : x = L
      · right; exact hxL
      · left; exact ⟨hx, hxL⟩
  · have hc : sel.contains L = false := by
      simp [List.contains, List.elem_eq_mem, hL]
    have hc2 : ((sel ++ [L]).contains L) = true := by
      simp [List.contains, List.elem_eq_mem]
    have e1 : toggleFilter L sel = sel ++ [L] := by
      rw [toggleFilter, if_neg (by simp [hc, hL])]
    have e2 : toggleFilter L (sel ++ [L]) =
        (sel ++ [L]).filter fun f => f != L := by
      rw [toggleFilter, if_pos hc2]
    rw [e1, e2]
    have heq : ((sel ++ [L]).filter fun f => f != L) = sel := by
      rw [List.filter_append]
      have h1 : (sel.filter fun f => f != L) = sel :=
        List.filter_eq_self.mpr fun a ha => by
          simp only [bne_iff_ne, ne_eq, decide_eq_true_eq]
          intro hEq
          exact hL (hEq ▸ ha)
      have h2 : (([L] : List String).filter fun f => f != L) = [] := by simp
      rw [h1, h2, List.append_nil]
    rw [heq]

/-- Membership-equal label selections give the same per-item predicate. -/
lemma menuPasses_ext {sel1 sel2 : List String}
    (h : ∀ x, x ∈ sel1 ↔ x ∈ sel2) (it : MenuItem) :
    menuPasses sel1 it = menuPasses sel2 it := by
  unfold menuPasses
  have h0 : (sel1.length == 0) = (sel2.length == 0) := by
    by_cases h1 : sel1 = []
    · have h2 : sel2 = [] := by
        rw [List.eq_nil_iff_forall_not_mem]
        intro x hx
        rw [List.eq_nil_iff_forall_not_mem] at h1
        exact h1 x ((h x).mpr hx)
      rw [h1, h2]
    · have h2 : sel2 ≠ [] := by
        intro h2
        apply h1
        rw [List.eq_nil_iff_forall_not_mem]
        intro x hx
        rw [h2] at h
        exact (List.not_mem_nil x) ((h x).mp hx)
      simp [List.length_eq_zero, h1, h2]
  have hany : (sel1.any fun f => it.tags.contains f) =
      (sel2.any fun f => it.tags.contains f) := by
    cases hb1 : sel1.any fun f => it.tags.contains f with
    | true =>
      obtain ⟨x, hx, hpx⟩ := List.any_eq_true.mp hb1
      exact (List.any_eq_true.mpr ⟨x, (h x).mp hx, hpx⟩).symm
    | false =>
      cases hb2 : sel2.any fun f => it.tags.contains f with
      | true =>
        obtain ⟨x, hx, hpx⟩ := List.any_eq_true.mp hb2
        have hcontra := List.any_eq_true.mpr ⟨x, (h x).mpr hx, hpx⟩
        rw [hb1] at hcontra
        exact hcontra
      | false => rfl
  rw [h0, hany]

/-- Membership-equal label selections give the same menu evaluation. -/
lemma filteredItems_ext {sel1 sel2 : List String}
    (h : ∀ x, x ∈ sel1 ↔ x ∈ sel2) (cat : String) :
    filteredItems cat sel1 = filteredItems cat sel2 := by
  unfold filteredItems
  cases menuItems cat with
  | none => rfl
  | some items => exact List.filter_congr fun it _ => menuPasses_ext h it

/-- C7: toggling a label twice returns the selected-label set — and hence
the evaluator's result on any fixed catalog — to its pre-toggle value, and
toggling a label that is already selected removes it rather than adding a
duplicate. -/
theorem label_toggle_involutive :
    ∀ (L : String) (sel : List String),
      (∀ x, x ∈ toggleFilter L (toggleFilter L sel) ↔ x ∈ sel) ∧
      (L ∈ sel → L ∉ toggleFilter L sel) ∧
      (∀ cat, filteredItems cat (toggleFilter L (toggleFilter L sel)) =
        filteredItems cat sel) := by
  intro L sel
  refine ⟨toggleFilter_twice_mem L sel, ?_, ?_⟩
  · intro hL
    have hc : sel.contains L = true := by
      simpa [List.contains] using List.elem_iff.mpr hL
    rw [toggleFilter, if_pos hc]
    simp [List.mem_filter]
  · intro cat
    exact filteredItems_ext (toggleFilter_twice_mem L sel) cat

/-- Witness for C7 at the label `"spicy"` over the selection
`["popular", "spicy"]`, evaluated on the appetizers tab. -/
theorem label_toggle_involutive_witness :
    ("vegetarian" ∈ toggleFilter "spicy" (toggleFilter "spicy"
        ["popular", "spicy"]) ↔ "vegetarian" ∈ ["popular", "spicy"]) ∧
    "spicy" ∉ toggleFilter "spicy" ["popular", "spicy"] ∧
    filteredItems "appetizers"
        (toggleFilter "spicy" (toggleFilter "spicy" ["popular", "spicy"])) =
      filteredItems "appetizers" ["popular", "spicy"] :=
  ⟨(label_toggle_involutive "spicy" ["popular", "spicy"]).1 "vegetarian",
   (label_toggle_involutive "spicy" ["popular", "spicy"]).2.1 (by decide),
   (label_toggle_involutive "spicy" ["popular", "spicy"]).2.2 "appetizers"⟩

/-- C8: on the sample product catalog with `selectedLabels = {"sale"}` and
`selectedCategory = "all"`, the spec's evaluator returns exactly the items
whose label set contains `"sale"` — the two sale-badged products, ids 1 and
5 — as an order-preserving subsequence of the catalog. -/
theorem sale_label_scenario :
    productLabelFilter products "all" ["sale"] =
      products.filter (fun p => (productLabels p).contains "sale") ∧
    (productLabelFilter products "all" ["sale"]).map Product.id = [1, 5] ∧
    (productLabelFilter products "all" ["sale"]).length = 2 ∧
    (productLabelFilter products "all" ["sale"]).Sublist products :=
  ⟨by decide, by decide, by decide, List.filter_sublist products⟩

/-- The claim that category `"all"` with no label selection always returns
the full catalog is refuted by the code: the range facet is always active,
and the price range `(0, 10)` excludes every sample product. -/
theorem all_categories_counterexample :
    filteredProducts "all" 0 10 ≠ products := by decide

/-- C9 (amended): for every catalog and every filter state whose
`selectedCategory` is `"all"`, whose `selectedLabels` is empty and whose
price range contains every catalog price, the evaluator returns the full
catalog, order preserved. -/
theorem all_categories_full_catalog :
    ∀ (catalog : List Product) (lo hi : Nat),
      (∀ p ∈ catalog, lo ≤ p.price ∧ p.price ≤ hi) →
      productFilter catalog "all" lo hi = catalog := by
  intro catalog lo hi h
  apply List.filter_eq_self.mpr
  intro p hp
  simp [(h p hp).1, (h p hp).2]

/-- Witness for C9 (amended): the sample catalog with the default price
range `(0, 500)`. -/
theorem all_categories_full_catalog_witness :
    productFilter products "all" 0 500 = products :=
  all_categories_full_catalog products 0 500 (by decide)
